import Mathlib

/- Verification development for the tedana dynamic-report module
   `tedana/reporting/KappaRho_DynPlot.py` (component-table preparation,
   spectrum-table construction, and the client-side tap callback that links
   the charts) together with the `tap_callback` argument binding.
   Python floats are modelled as rationals, JS strings as Lean strings, and
   the JS tap handler as a pure transition on the mutable plot state. -/

/-- Error taxonomy used by the spec: data-format and configuration failures. -/
inductive Err where
  | dataFormatError
  | configurationError
deriving DecidableEq

/-- The module-level classification-to-color dictionary of
`KappaRho_DynPlot.py` lines 29-31, modelled as an association list. -/
def color_mapping : List (String × String) :=
  [("accepted", "#2ecc71"), ("rejected", "#e74c3c"), ("ignored", "#3498db")]

/-- Model of the list comprehension building the color column inside
`create_data_struct` (line 262): a Python dict lookup raises `KeyError` on a
missing key, which the spec error taxonomy calls `ConfigurationError`. -/
def assign_colors (m : List (String × String)) : List String → Except Err (List String)
  | [] => Except.ok []
  | c :: cs =>
    match List.lookup c m with
    | some col =>
      match assign_colors m cs with
      | Except.ok cols => Except.ok (col :: cols)
      | Except.error e => Except.error e
    | none => Except.error Err.configurationError

/-- Model of `pandas.Series.rank(ascending=False)` with the default method
`average`, used for the `kappa_rank`, `rho_rank` and `var_exp_rank` columns
(lines 254-256): the rank of an entry is the number of strictly larger
entries plus the average of the positions occupied by its tie group. -/
def rank_desc (l : List ℚ) : List ℚ :=
  l.map fun v =>
    ((l.countP fun w => decide (v < w)) : ℚ) +
      (((l.countP fun w => decide (w = v)) : ℚ) + 1) / 2

/-- The columns of the parsed component table that the rank, size, color and
angle computations of `create_data_struct` read. -/
structure CompTable where
  kappa : List ℚ
  rho : List ℚ
  var_exp : List ℚ
  classification : List String
deriving DecidableEq

/-- Column `kappa_rank` of `create_data_struct` (line 255). -/
def kappa_rank (t : CompTable) : List ℚ := rank_desc t.kappa

/-- Column `rho_rank` of `create_data_struct` (line 254). -/
def rho_rank (t : CompTable) : List ℚ := rank_desc t.rho

/-- Column `var_exp_rank` of `create_data_struct` (line 256). -/
def var_exp_rank (t : CompTable) : List ℚ := rank_desc t.var_exp

/-- Model of `MinMaxScaler(feature_range=(4, 20)).fit_transform(...)[:, 0]`
(lines 249-251). The scaler rescales each column independently, so only the
`var_exp` column matters for the returned first column. sklearn replaces a
zero data range by 1 (`_handle_zeros_in_scale`), which the `if` below
reproduces, so the all-equal case performs no division by zero. -/
def var_exp_size : List ℚ → List ℚ
  | [] => []
  | x :: xs =>
    (x :: xs).map fun v =>
      (v - (x :: xs).foldl min x) /
        (if (x :: xs).foldl max x - (x :: xs).foldl min x = 0 then 1
         else (x :: xs).foldl max x - (x :: xs).foldl min x) * 16 + 4

/-- Model of the angle column of `create_data_struct` (line 268): each
variance-explained value divided by the column sum and scaled by 2 times pi.
The parameter `twoPi` stands for the real constant 2 times pi, which the
code only ever multiplies by. -/
def pie_angles (twoPi : ℚ) (l : List ℚ) : List ℚ :=
  l.map fun v => v / l.sum * twoPi

/-- Modelled from the spec: `tedana.utils.get_spectrum` is not under `src`
(only its caller `_spectrum_data_src` is). Spec section 4.2 specifies, per
component, a one-sided power spectrum over its time series with a frequency
axis spanning 0 to Nyquist and bin count proportional to the sample count,
the concrete estimator being left open. We take the proportionality constant
to be one: one power value (the squared sample) per sample, with an evenly
spaced frequency axis. -/
def get_spectrum (data : List ℚ) (tr : ℚ) : List ℚ × List ℚ :=
  (data.map fun x => x * x,
   (List.range data.length).map fun i => (i : ℚ) / (2 * tr * (data.length : ℚ)))

/-- The column-filling loop of `_spectrum_data_src` (lines 208-212): each
component spectrum is assigned into a dataframe whose index was fixed to the
bin count of component 0; pandas raises when a column length does not match
the index length, which the spec taxonomy calls `DataFormatError`. -/
def spectColumns (nf : Nat) (tr : ℚ) : List (List ℚ) → Except Err (List (List ℚ))
  | [] => Except.ok []
  | t :: rest =>
    if (get_spectrum t tr).1.length = nf then
      match spectColumns nf tr rest with
      | Except.ok cols => Except.ok ((get_spectrum t tr).1 :: cols)
      | Except.error e => Except.error e
    else Except.error Err.dataFormatError

/-- Model of `_spectrum_data_src` (lines 183-214). The component time series
are given in component order (entry `c` is column `ica_0c`). The bin count
`nf` comes from component 0; the returned frequency axis is the one left by
the last loop iteration; an empty table has no `ica_00` column, a
data-format failure. -/
def _spectrum_data_src (ts : List (List ℚ)) (tr : ℚ) :
    Except Err (List (List ℚ) × List ℚ) :=
  match ts with
  | [] => Except.error Err.dataFormatError
  | t0 :: rest =>
    match spectColumns (get_spectrum t0 tr).1.length tr (t0 :: rest) with
    | Except.ok cols =>
      Except.ok (cols, (get_spectrum ((t0 :: rest).getLastD t0) tr).2)
    | Except.error e => Except.error e

/-- The columns of `source_comp_table.data` that the tap callback reads. -/
structure CompData where
  component : List String
  color : List String
deriving DecidableEq

/-- The mutable state the tap callback writes: the two plot traces, their
line colors, and the text of the auxiliary `Div` panel. -/
structure PlotState where
  tsY : List ℚ
  fftY : List ℚ
  tsColor : String
  fftColor : String
  divText : String
deriving DecidableEq

/-- The immutable data the tap callback reads: the component table columns,
the per-component series and spectra keyed by `ica_XX`, the lengths of the
two immutable x arrays of the plot sources, and the output directory. -/
structure TapConfig where
  data : CompData
  meicaTS : List (String × List ℚ)
  meicaFFT : List (String × List ℚ)
  tsXLen : Nat
  fftXLen : Nat
  outdir : String
deriving DecidableEq

/-- The JS assignment loop `for (i = 0; i < X.length; i++) Y[i] = src[i]`:
positions below `n` take the source value, the rest keep the old one. -/
def overwrite (n : Nat) (dst src : List ℚ) : List ℚ :=
  (List.range dst.length).map fun i =>
    if i < n then src.getD i 0 else dst.getD i 0

/-- The JS zeroing loop `for (i = 0; i < X.length; i++) Y[i] = 0`. -/
def zeroFill (n : Nat) (dst : List ℚ) : List ℚ :=
  (List.range dst.length).map fun i =>
    if i < n then (0 : ℚ) else dst.getD i 0

/-- The JS while loop that left-pads `selected_padded` with the character 0
until its length reaches 2. Each iteration prepends one character, so the
loop runs at most twice; it is unrolled here. -/
def padTo2 (s : String) : String :=
  if s.length < 2 then
    if ("0" ++ s).length < 2 then "0" ++ ("0" ++ s) else "0" ++ s
  else s

/-- The image line built in the select branch (lines 339-340): the HTML
snippet referencing `outdir/figures/comp_<pad3>.png` and ending in a
newline. -/
def mkImgLine (outdir pad3 : String) : String :=
  "<span><img src=\x27" ++ outdir ++ "/figures/comp_" ++ pad3 ++ ".png\x27" ++
    " alt=\x27Component Map\x27 height=1000 width=900><span>\n"

/-- JS `String.prototype.split("\n")` on the character list of a string. -/
def splitCharsNl : List Char → List (List Char)
  | [] => [[]]
  | c :: cs =>
    if c = '\n' then [] :: splitCharsNl cs
    else
      match splitCharsNl cs with
      | r :: rs => (c :: r) :: rs
      | [] => [[c]]

/-- JS `text.split("\n")` as a list of strings. -/
def jsSplitNl (s : String) : List String :=
  (splitCharsNl s.toList).map fun l => String.mk l

/-- JS `lines.join("\n")`. -/
def jsJoinNl : List String → String
  | [] => ""
  | [s] => s
  | s :: rest => s ++ "\n" ++ jsJoinNl rest

/-- The panel update of the select branch (lines 337-346): `div.text` is
first set to the empty string, the image line is concatenated onto that
empty text, the result is split on newlines, `lines.shift()` drops the
oldest line when there are more than 35, and the lines are joined back. -/
def jsDivSelect (outdir pad3 : String) : String :=
  jsJoinNl
    (if (jsSplitNl ("" ++ mkImgLine outdir pad3)).length > 35 then
      (jsSplitNl ("" ++ mkImgLine outdir pad3)).tail
     else jsSplitNl ("" ++ mkImgLine outdir pad3))

/-- The select branch of `tap_callback_jscode` (lines 292-346), entered when
the JS guard takes the tap as a selection of table row `i`. -/
def selectStep (cfg : TapConfig) (st : PlotState) (i : Nat) : PlotState :=
  let selected := cfg.data.component.getD i ""
  let selected_padded := padTo2 selected
  let selected_padded_forIMG := "0" ++ selected_padded
  let selected_padded_C := "ica_" ++ selected_padded
  let this_component_color := cfg.data.color.getD i ""
  { tsY := overwrite cfg.tsXLen st.tsY
      ((List.lookup selected_padded_C cfg.meicaTS).getD [])
    fftY := overwrite cfg.fftXLen st.fftY
      ((List.lookup selected_padded_C cfg.meicaFFT).getD [])
    tsColor := this_component_color
    fftColor := this_component_color
    divText := jsDivSelect cfg.outdir selected_padded_forIMG }

/-- The no-selection branch of `tap_callback_jscode` (lines 348-381): both
traces are zeroed, both line colors reset to black, and the panel text set
to a single newline. -/
def deselectStep (cfg : TapConfig) (st : PlotState) : PlotState :=
  { tsY := zeroFill cfg.tsXLen st.tsY
    fftY := zeroFill cfg.fftXLen st.fftY
    tsColor := "#000000"
    fftColor := "#000000"
    divText := "\n" }

/-- Semantics of `tap_callback_jscode` (lines 288-382) as a transition on the
plot state, given the tap event `indices = source_comp_table.selected.indices`.
The JS guard is `if (selected_idx > 0)` on the indices ARRAY: under JS
coercion an empty array compares as 0, a one-element array as its element,
and a longer array as NaN, so the guard holds exactly for a singleton
`[i]` with `i > 0`. -/
def tap_callback_js (cfg : TapConfig) (st : PlotState) (indices : List Nat) :
    PlotState :=
  match indices with
  | [i] => if 0 < i then selectStep cfg st i else deselectStep cfg st
  | _ => deselectStep cfg st

/-- The bokeh `Div` element, with the attributes set at line 561. -/
structure DivPanel where
  width : Nat
  height : Nat
  height_policy : String
deriving DecidableEq

/-- The module-level `div_content` object built at line 561 with width 600,
height 900 and a fixed height policy. -/
def div_content : DivPanel :=
  { width := 600, height := 900, height_policy := "fixed" }

/-- A bokeh `Line` glyph, reduced to the attribute the callback touches. -/
structure LineGlyph where
  line_color : String
deriving DecidableEq

/-- A plot `ColumnDataSource` holding the x and y columns of a trace. -/
structure PlotCDS where
  x : List ℚ
  y : List ℚ
deriving DecidableEq

/-- The argument dictionary handed to `models.CustomJS` by `tap_callback`
(lines 402-410). The `code` string is the constant `tap_callback_jscode`,
whose semantics is `tap_callback_js` above, so only the bindings are kept. -/
structure CustomJSArgs where
  source_comp_table : CompData
  source_meica_ts : List (String × List ℚ)
  source_tsplot : PlotCDS
  source_meica_fft : List (String × List ℚ)
  source_fftplot : PlotCDS
  div : DivPanel
  ts_line : LineGlyph
  fft_line : LineGlyph
  outdir : String
deriving DecidableEq

/-- Model of `tap_callback` (lines 385-410). Note that the args dictionary
binds `div=div_content`, the module-level object, not the `div` parameter of
the function. -/
def tap_callback (comptable_cds : CompData) (CDS_meica_ts : List (String × List ℚ))
    (comp_fft_cds : List (String × List ℚ)) (plot_ts_cds plot_fft_cds : PlotCDS)
    (ts_line_glyph fft_line_glyph : LineGlyph) (div : DivPanel) (out_dir : String) :
    CustomJSArgs :=
  { source_comp_table := comptable_cds
    source_meica_ts := CDS_meica_ts
    source_tsplot := plot_ts_cds
    source_meica_fft := comp_fft_cds
    source_fftplot := plot_fft_cds
    div := div_content
    ts_line := ts_line_glyph
    fft_line := fft_line_glyph
    outdir := out_dir }

/-- The padding scheme in the words of the spec: the component id
zero-padded to two digits, with one more literal zero prefixed. -/
def pad_scheme_spec (s : String) : String :=
  "0" ++ (if s.length ≥ 2 then s else if s.length = 1 then "0" ++ s else "00")

/-- A concrete five-component configuration used to evaluate the callback:
components 0 to 4 with their record colors, series and spectra stored under
the `ica_XX` keys. -/
def cfg9 : TapConfig :=
  { data :=
      { component := ["0", "1", "2", "3", "4"]
        color := ["#2ecc71", "#2ecc71", "#e74c3c", "#e74c3c", "#3498db"] }
    meicaTS := [("ica_03", [7]), ("ica_00", [1])]
    meicaFFT := [("ica_03", [9]), ("ica_00", [2])]
    tsXLen := 1
    fftXLen := 1
    outdir := "." }

/-- The initial plot state: zero-filled traces, black lines, empty panel. -/
def st9 : PlotState :=
  { tsY := [0], fftY := [0], tsColor := "#000000", fftColor := "#000000"
    divText := "" }

/-- A plot state whose panel already holds earlier content. -/
def stPrior : PlotState :=
  { tsY := [0], fftY := [0], tsColor := "#000000", fftColor := "#000000"
    divText := "OLD\n" }

/-- A two-component configuration with nonzero stored series, for evaluating
the callback on a tap that selects table row 0. -/
def cfg1 : TapConfig :=
  { data :=
      { component := ["0", "1"]
        color := ["#2ecc71", "#e74c3c"] }
    meicaTS := [("ica_00", [1, 2]), ("ica_01", [3, 4])]
    meicaFFT := [("ica_00", [5, 6]), ("ica_01", [7, 8])]
    tsXLen := 2
    fftXLen := 2
    outdir := "." }

/-- Initial plot state matching `cfg1`. -/
def st1 : PlotState :=
  { tsY := [0, 0], fftY := [0, 0], tsColor := "#000000", fftColor := "#000000"
    divText := "" }

/-- A component table whose three metric columns are pairwise distinct. -/
def tW : CompTable :=
  { kappa := [3, 1, 2], rho := [5, 4, 6], var_exp := [40, 25, 15]
    classification := ["accepted", "rejected", "ignored"] }

/-- A component table with a tie in the kappa column. -/
def tTie : CompTable :=
  { kappa := [5, 5], rho := [1, 2], var_exp := [1, 2]
    classification := ["accepted", "accepted"] }

/-- The zeroing loop turns the y column into an all-zero column of the same
length when, as the plots guarantee, the x and y columns have equal length. -/
theorem zeroFill_eq_replicate (n : Nat) (dst : List ℚ) (h : dst.length = n) :
    zeroFill n dst = List.replicate n 0 := by
  apply List.eq_replicate_iff.mpr
  constructor
  · simp [zeroFill, h]
  · intro b hb
    obtain ⟨i, hi, hbi⟩ := List.mem_map.mp hb
    rw [List.mem_range] at hi
    rw [← hbi, if_pos (h ▸ hi)]

/-- C10: the CustomJS callback constructed by `tap_callback` ignores the
`div` parameter it receives: whatever is passed there, the panel bound into
the callback args is the module-level `div_content` object, so the result
does not depend on the `div` argument. -/
theorem spec_c10 :
    ∀ (c : CompData) (ts fft : List (String × List ℚ)) (pts pff : PlotCDS)
      (tl fl : LineGlyph) (dA dB : DivPanel) (o : String),
      tap_callback c ts fft pts pff tl fl dA o = tap_callback c ts fft pts pff tl fl dB o ∧
      (tap_callback c ts fft pts pff tl fl dA o).div = div_content := by
  intros
  exact ⟨rfl, rfl⟩

/-- C4: a tap whose selected index list is empty (the click did not hit a
valid point) takes the no-selection branch: both traces become all zero,
both line colors become the default black, and the panel text becomes the
single newline, which splits into empty lines only (no remaining content). -/
theorem spec_c4 (cfg : TapConfig) (st : PlotState)
    (h1 : st.tsY.length = cfg.tsXLen) (h2 : st.fftY.length = cfg.fftXLen) :
    (tap_callback_js cfg st []).tsY = List.replicate cfg.tsXLen 0 ∧
    (tap_callback_js cfg st []).fftY = List.replicate cfg.fftXLen 0 ∧
    (tap_callback_js cfg st []).tsColor = "#000000" ∧
    (tap_callback_js cfg st []).fftColor = "#000000" ∧
    (tap_callback_js cfg st []).divText = "\n" ∧
    ∀ ln ∈ jsSplitNl (tap_callback_js cfg st []).divText, ln = "" := by
  refine ⟨zeroFill_eq_replicate _ _ h1, zeroFill_eq_replicate _ _ h2, rfl, rfl, rfl, ?_⟩
  show ∀ ln ∈ jsSplitNl "\n", ln = ""
  decide

/-- Closed instance of `spec_c4` at a concrete configuration. -/
theorem spec_c4_witness :
    (st1.tsY.length = cfg1.tsXLen ∧ st1.fftY.length = cfg1.fftXLen) ∧
    ((tap_callback_js cfg1 st1 []).tsY = List.replicate cfg1.tsXLen 0 ∧
     (tap_callback_js cfg1 st1 []).fftY = List.replicate cfg1.fftXLen 0 ∧
     (tap_callback_js cfg1 st1 []).tsColor = "#000000" ∧
     (tap_callback_js cfg1 st1 []).fftColor = "#000000" ∧
     (tap_callback_js cfg1 st1 []).divText = "\n" ∧
     ∀ ln ∈ jsSplitNl (tap_callback_js cfg1 st1 []).divText, ln = "") :=
  ⟨⟨rfl, rfl⟩, spec_c4 cfg1 st1 rfl rfl⟩

/-- On success every returned color is exactly the mapped color of the
corresponding classification, so the color column is a pure pointwise
function of the classification column. -/
theorem assign_colors_ok (m : List (String × String)) :
    ∀ (cs colors : List String), assign_colors m cs = Except.ok colors →
      cs.map (fun c => List.lookup c m) = colors.map some := by
  intro cs
  induction cs with
  | nil =>
    intro colors h
    simp only [assign_colors] at h
    injection h with h
    subst h
    rfl
  | cons c cs ih =>
    intro colors h
    cases hl : List.lookup c m with
    | none =>
      have hx : assign_colors m (c :: cs) = Except.error Err.configurationError := by
        simp [assign_colors, hl]
      rw [hx] at h
      simp at h
    | some col =>
      cases hrec : assign_colors m cs with
      | error e =>
        have hx : assign_colors m (c :: cs) = Except.error e := by
          simp [assign_colors, hl, hrec]
        rw [hx] at h
        simp at h
      | ok cols =>
        have hx : assign_colors m (c :: cs) = Except.ok (col :: cols) := by
          simp [assign_colors, hl, hrec]
        rw [hx] at h
        injection h with h
        subst h
        simp [hl, ih cols hrec]

/-- If some classification in the data has no mapped color, the color
assignment fails with the configuration error. -/
theorem assign_colors_missing (m : List (String × String)) :
    ∀ (cs : List String) (c : String), c ∈ cs → List.lookup c m = none →
      assign_colors m cs = Except.error Err.configurationError := by
  intro cs
  induction cs with
  | nil => intro c hc; cases hc
  | cons a cs ih =>
    intro c hc hnone
    rcases List.mem_cons.mp hc with rfl | hcs
    · simp [assign_colors, hnone]
    · cases hl : List.lookup a m with
      | none => simp [assign_colors, hl]
      | some col => simp [assign_colors, hl, ih c hcs hnone]

/-- C5: the color column is assigned as a pure function of the
classification labels through the mapping; the assignment fails with
`ConfigurationError` whenever a classification has no mapped color; and the
default mapping sends accepted, rejected and ignored to exactly the colors
2ecc71, e74c3c and 3498db (hash-prefixed hex strings). -/
theorem spec_c5 :
    (∀ (m : List (String × String)) (cs colors : List String),
        assign_colors m cs = Except.ok colors →
        cs.map (fun c => List.lookup c m) = colors.map some) ∧
    (∀ (m : List (String × String)) (cs : List String) (c : String),
        c ∈ cs → List.lookup c m = none →
        assign_colors m cs = Except.error Err.configurationError) ∧
    (List.lookup "accepted" color_mapping = some "#2ecc71" ∧
     List.lookup "rejected" color_mapping = some "#e74c3c" ∧
     List.lookup "ignored" color_mapping = some "#3498db") :=
  ⟨assign_colors_ok, assign_colors_missing, by decide⟩

/-- Closed instance of `spec_c5` at a concrete unmapped classification. -/
theorem spec_c5_witness :
    ("mystery" ∈ ["accepted", "mystery"] ∧
      List.lookup "mystery" color_mapping = none) ∧
    assign_colors color_mapping ["accepted", "mystery"] =
      Except.error Err.configurationError :=
  ⟨⟨by decide, by decide⟩,
    spec_c5.2.1 color_mapping ["accepted", "mystery"] "mystery" (by decide) (by decide)⟩

/-- Summing the shares-times-constant over a list pulls the sum inside. -/
theorem sum_map_div_mul (S tau : ℚ) :
    ∀ l : List ℚ, (l.map fun v => v / S * tau).sum = l.sum / S * tau := by
  intro l
  induction l with
  | nil => simp
  | cons a l ih =>
    simp only [List.map_cons, List.sum_cons, ih]
    ring

/-- C8: for a non-empty record set with positive total variance explained,
the pie-slice angles (each proportional to the share of the total, scaled by
the constant `twoPi`, standing for 2 times pi) sum to exactly that
constant. -/
theorem spec_c8 (twoPi : ℚ) (l : List ℚ) (hne : l ≠ []) (hpos : 0 < l.sum) :
    (pie_angles twoPi l).sum = twoPi := by
  unfold pie_angles
  rw [sum_map_div_mul]
  rw [div_self (ne_of_gt hpos), one_mul]

/-- Closed instance of `spec_c8` at a concrete record set. -/
theorem spec_c8_witness :
    (([1, 2, 3] : List ℚ) ≠ [] ∧ (0 : ℚ) < ([1, 2, 3] : List ℚ).sum) ∧
    (pie_angles 2 [1, 2, 3]).sum = 2 :=
  ⟨⟨by decide, by norm_num⟩, spec_c8 2 [1, 2, 3] (by decide) (by norm_num)⟩

/-- A running fold by `min` never exceeds its accumulator. -/
theorem foldl_min_le_init : ∀ (l : List ℚ) (a : ℚ), l.foldl min a ≤ a := by
  intro l
  induction l with
  | nil => intro a; exact le_refl a
  | cons b l ih => intro a; exact le_trans (ih (min a b)) (min_le_left a b)

/-- A running fold by `min` is at most every list member. -/
theorem foldl_min_le_mem : ∀ (l : List ℚ) (a v : ℚ), v ∈ l → l.foldl min a ≤ v := by
  intro l
  induction l with
  | nil => intro a v hv; cases hv
  | cons b l ih =>
    intro a v hv
    rcases List.mem_cons.mp hv with rfl | hvl
    · exact le_trans (foldl_min_le_init l (min a v)) (min_le_right a v)
    · exact ih (min a b) v hvl

/-- A running fold by `max` is at least its accumulator. -/
theorem le_foldl_max_init : ∀ (l : List ℚ) (a : ℚ), a ≤ l.foldl max a := by
  intro l
  induction l with
  | nil => intro a; exact le_refl a
  | cons b l ih => intro a; exact le_trans (le_max_left a b) (ih (max a b))

/-- A running fold by `max` is at least every list member. -/
theorem le_foldl_max_mem : ∀ (l : List ℚ) (a v : ℚ), v ∈ l → v ≤ l.foldl max a := by
  intro l
  induction l with
  | nil => intro a v hv; cases hv
  | cons b l ih =>
    intro a v hv
    rcases List.mem_cons.mp hv with rfl | hvl
    · exact le_trans (le_max_right a v) (le_foldl_max_init l (max a v))
    · exact ih (max a b) v hvl

/-- C6: every marker-size value produced by the min-max scaling of the
variance-explained column lies in the closed interval from 4 to 20, for any
input distribution; the all-equal case divides by the guarded value 1, not
by zero, and yields the lower bound 4. -/
theorem spec_c6 (l : List ℚ) (y : ℚ) (hy : y ∈ var_exp_size l) : 4 ≤ y ∧ y ≤ 20 := by
  cases l with
  | nil => simp [var_exp_size] at hy
  | cons x xs =>
    simp only [var_exp_size] at hy
    rcases List.mem_map.mp hy with ⟨v, hv, hvy⟩
    rw [← hvy]
    have hmv : (x :: xs).foldl min x ≤ v := foldl_min_le_mem _ _ _ hv
    have hvM : v ≤ (x :: xs).foldl max x := le_foldl_max_mem _ _ _ hv
    by_cases h0 : (x :: xs).foldl max x - (x :: xs).foldl min x = 0
    · rw [if_pos h0]
      have hveq : v = (x :: xs).foldl min x := by
        have hMm : (x :: xs).foldl max x = (x :: xs).foldl min x := by linarith
        exact le_antisymm (hMm ▸ hvM) hmv
      rw [hveq]
      norm_num
    · rw [if_neg h0]
      have hle : (x :: xs).foldl min x ≤ (x :: xs).foldl max x := le_trans hmv hvM
      have hpos : 0 < (x :: xs).foldl max x - (x :: xs).foldl min x := by
        rcases lt_or_eq_of_le hle with h | h
        · linarith
        · exact absurd (by linarith) h0
      have hq0 : 0 ≤ (v - (x :: xs).foldl min x) /
          ((x :: xs).foldl max x - (x :: xs).foldl min x) :=
        div_nonneg (by linarith) (le_of_lt hpos)
      have hq1 : (v - (x :: xs).foldl min x) /
          ((x :: xs).foldl max x - (x :: xs).foldl min x) ≤ 1 :=
        (div_le_one hpos).mpr (by linarith)
      constructor <;> nlinarith

/-- Closed instance of `spec_c6` at a concrete distribution. -/
theorem spec_c6_witness :
    (4 : ℚ) ∈ var_exp_size [1, 2] ∧ ((4 : ℚ) ≤ 4 ∧ (4 : ℚ) ≤ 20) := by
  have hm : (4 : ℚ) ∈ var_exp_size [1, 2] := by
    have hev : var_exp_size [1, 2] = [4, 20] := by
      norm_num [var_exp_size, min_def, max_def]
    rw [hev]
    exact List.mem_cons_self _ _
  exact ⟨hm, spec_c6 [1, 2] 4 hm⟩

/-- The modelled spectrum has one bin per input sample. -/
theorem get_spectrum_length (t : List ℚ) (tr : ℚ) :
    (get_spectrum t tr).1.length = t.length := by
  simp [get_spectrum]

/-- Every column accepted by the column-filling loop has exactly the bin
count fixed by component 0. -/
theorem spectColumns_ok_length (nf : Nat) (tr : ℚ) :
    ∀ (l cols : List (List ℚ)), spectColumns nf tr l = Except.ok cols →
      ∀ s ∈ cols, s.length = nf := by
  intro l
  induction l with
  | nil =>
    intro cols h s hs
    simp only [spectColumns] at h
    injection h with h
    subst h
    cases hs
  | cons t l ih =>
    intro cols h s hs
    by_cases hc : (get_spectrum t tr).1.length = nf
    · cases hrec : spectColumns nf tr l with
      | error e =>
        have hx : spectColumns nf tr (t :: l) = Except.error e := by
          simp [spectColumns, hc, hrec]
        rw [hx] at h
        simp at h
      | ok cols2 =>
        have hx : spectColumns nf tr (t :: l) = Except.ok ((get_spectrum t tr).1 :: cols2) := by
          simp [spectColumns, hc, hrec]
        rw [hx] at h
        injection h with h
        subst h
        rcases List.mem_cons.mp hs with rfl | hsl
        · exact hc
        · exact ih cols2 hrec s hsl
    · have hx : spectColumns nf tr (t :: l) = Except.error Err.dataFormatError := by
        simp [spectColumns, hc]
      rw [hx] at h
      simp at h

/-- If some series yields a bin count different from the fixed one, the
column-filling loop fails with the data-format error. -/
theorem spectColumns_mismatch (nf : Nat) (tr : ℚ) :
    ∀ l : List (List ℚ), (∃ t ∈ l, t.length ≠ nf) →
      spectColumns nf tr l = Except.error Err.dataFormatError := by
  intro l
  induction l with
  | nil => rintro ⟨t, ht, _⟩; cases ht
  | cons a l ih =>
    rintro ⟨t, ht, hlen⟩
    rcases List.mem_cons.mp ht with rfl | htl
    · have hc : ¬ (get_spectrum t tr).1.length = nf := by
        rw [get_spectrum_length]; exact hlen
      simp [spectColumns, hc]
    · by_cases hc : (get_spectrum a tr).1.length = nf
      · have herr := ih ⟨t, htl, hlen⟩
        simp [spectColumns, hc, herr]
      · simp [spectColumns, hc]

/-- C7: on a successful run of the spectrum estimator all component spectra
have the identical number of frequency bins, and time series of mismatched
lengths make the estimator fail with `DataFormatError`. -/
theorem spec_c7 :
    (∀ (ts : List (List ℚ)) (tr : ℚ) (cols : List (List ℚ)) (freqs : List ℚ),
        _spectrum_data_src ts tr = Except.ok (cols, freqs) →
        ∀ s1 ∈ cols, ∀ s2 ∈ cols, s1.length = s2.length) ∧
    (∀ (ts : List (List ℚ)) (tr : ℚ) (t1 t2 : List ℚ),
        t1 ∈ ts → t2 ∈ ts → t1.length ≠ t2.length →
        _spectrum_data_src ts tr = Except.error Err.dataFormatError) := by
  constructor
  · intro ts tr cols freqs h s1 hs1 s2 hs2
    cases ts with
    | nil => simp [_spectrum_data_src] at h
    | cons t0 rest =>
      cases hsc : spectColumns (get_spectrum t0 tr).1.length tr (t0 :: rest) with
      | error e =>
        have hx : _spectrum_data_src (t0 :: rest) tr = Except.error e := by
          simp [_spectrum_data_src, hsc]
        rw [hx] at h
        simp at h
      | ok cols2 =>
        have hx : _spectrum_data_src (t0 :: rest) tr =
            Except.ok (cols2, (get_spectrum ((t0 :: rest).getLastD t0) tr).2) := by
          simp [_spectrum_data_src, hsc]
        rw [hx] at h
        injection h with h
        have hcols : cols2 = cols := congrArg Prod.fst h
        subst hcols
        rw [spectColumns_ok_length _ _ _ _ hsc s1 hs1,
            spectColumns_ok_length _ _ _ _ hsc s2 hs2]
  · intro ts tr t1 t2 h1 h2 hne
    cases ts with
    | nil => cases h1
    | cons t0 rest =>
      have hmis : ∃ t ∈ t0 :: rest, t.length ≠ (get_spectrum t0 tr).1.length := by
        rw [get_spectrum_length]
        by_cases ht1 : t1.length = t0.length
        · refine ⟨t2, h2, fun h => hne ?_⟩
          rw [ht1, h]
        · exact ⟨t1, h1, ht1⟩
      have herr := spectColumns_mismatch _ tr _ hmis
      simp [_spectrum_data_src, herr]

/-- Closed instance of `spec_c7` at concrete mismatched series. -/
theorem spec_c7_witness :
    (([1, 2] : List ℚ) ∈ [[1, 2], [1, 2, 3]] ∧
      ([1, 2, 3] : List ℚ) ∈ [[1, 2], [1, 2, 3]] ∧
      ([1, 2] : List ℚ).length ≠ ([1, 2, 3] : List ℚ).length) ∧
    _spectrum_data_src [[1, 2], [1, 2, 3]] 2 = Except.error Err.dataFormatError :=
  ⟨⟨by decide, by decide, by decide⟩,
    spec_c7.2 [[1, 2], [1, 2, 3]] 2 [1, 2] [1, 2, 3] (by decide) (by decide) (by decide)⟩

/-- C9: selecting component "03" in a five-component report puts into the
panel the image line referencing `comp_003.png`; in general the image name
pads the component id to two digits with the JS while loop and then prefixes
one more literal zero, which agrees with the padding scheme as the spec
words it. -/
theorem spec_c9 :
    ("0" ++ padTo2 "3" = "003") ∧
    ((tap_callback_js cfg9 st9 [3]).divText =
      "<span><img src=\x27./figures/comp_003.png\x27 alt=\x27Component Map\x27 height=1000 width=900><span>\n") ∧
    (∀ s : String, "0" ++ padTo2 s = pad_scheme_spec s) := by
  refine ⟨by decide, by decide, ?_⟩
  intro s
  unfold padTo2 pad_scheme_spec
  have hzero : "0".length = 1 := rfl
  by_cases h2 : s.length < 2
  · have hcase : s.length = 0 ∨ s.length = 1 := by omega
    rcases hcase with h0 | h1
    · have hs : s = "" := by
        obtain ⟨data⟩ := s
        simp [String.length] at h0
        subst h0
        rfl
      subst hs
      decide
    · simp [h2, h1, String.length_append, hzero]
  · have hge : s.length ≥ 2 := Nat.le_of_not_lt h2
    simp [h2, hge]

/-- Closed instance of the general padding equation of `spec_c9`. -/
theorem spec_c9_witness : "0" ++ padTo2 "7" = pad_scheme_spec "7" :=
  spec_c9.2.2 "7"

/-- C2 fails on the code: with prior content already in the panel, a select
tap does not append to it. The select branch sets `div.text` to the empty
string before concatenating, so the resulting panel is the single new image
line and the prior content is gone. -/
theorem spec_c2_cex :
    stPrior.divText = "OLD\n" ∧
    (tap_callback_js cfg9 stPrior [3]).divText = mkImgLine "." "003" ∧
    (tap_callback_js cfg9 stPrior [3]).divText ≠ "OLD\n" ++ mkImgLine "." "003" := by
  refine ⟨rfl, by decide, by decide⟩

/-- C2 amended: on every tap the resulting panel text is independent of the
prior panel content (the select branch clears `div.text` before appending,
so prior content is always discarded and the 35-line eviction bound never
takes effect on this path); after a select the panel holds exactly the
single image line of the selected component. -/
theorem spec_c2_amended :
    (∀ (cfg : TapConfig) (stA stB : PlotState) (indices : List Nat),
        (tap_callback_js cfg stA indices).divText =
          (tap_callback_js cfg stB indices).divText) ∧
    ((tap_callback_js cfg9 stPrior [3]).divText = mkImgLine "." "003") := by
  constructor
  · intro cfg stA stB indices
    rcases indices with _ | ⟨i, _ | ⟨j, rest⟩⟩
    · rfl
    · by_cases hi : 0 < i
      · simp [tap_callback_js, hi, selectStep]
      · simp [tap_callback_js, hi, deselectStep]
    · rfl
  · decide

/-- C1 against the code at the failing input: a tap whose selected index
list is `[0]` selects the component stored in table row 0, yet the JS guard
`selected_idx > 0` sends it to the no-selection branch: the traces are
zeroed and colored black instead of receiving the stored series `[1, 2]`,
spectrum `[5, 6]` and record color of that component. -/
theorem spec_c1_bug :
    tap_callback_js cfg1 st1 [0] = deselectStep cfg1 st1 ∧
    (tap_callback_js cfg1 st1 [0]).tsY = [0, 0] ∧
    (tap_callback_js cfg1 st1 [0]).fftY = [0, 0] ∧
    (tap_callback_js cfg1 st1 [0]).tsColor = "#000000" ∧
    List.lookup "ica_00" cfg1.meicaTS = some [1, 2] ∧
    cfg1.data.color.getD 0 "" = "#2ecc71" ∧
    (tap_callback_js cfg1 st1 [0]).tsY ≠ [1, 2] ∧
    (tap_callback_js cfg1 st1 [0]).tsColor ≠ "#2ecc71" := by
  refine ⟨rfl, by decide, by decide, by decide, by decide, by decide, by decide, by decide⟩

/-- In a duplicate-free list each element occurs exactly once. -/
theorem countP_eq_one_nodup (l : List ℚ) (hn : l.Nodup) (v : ℚ) (hv : v ∈ l) :
    (l.countP fun w => decide (w = v)) = 1 := by
  induction l with
  | nil => cases hv
  | cons a l ih =>
    rw [List.countP_cons]
    have hform := List.nodup_cons.mp hn
    rcases List.mem_cons.mp hv with rfl | hvl
    · have h0 : (l.countP fun w => decide (w = v)) = 0 :=
        List.countP_eq_zero.mpr (by
          intro x hx
          simp only [decide_eq_true_eq]
          intro hxv
          exact hform.1 (hxv ▸ hx))
      simp [h0]
    · have hne : a ≠ v := fun h => hform.1 (h ▸ hvl)
      simp [ih hform.2 hvl, hne]

/-- A strictly smaller value has strictly more entries above it, provided
the larger value itself occurs in the list. -/
theorem countLt_lt_countLt (a b : ℚ) (hab : a < b) :
    ∀ l : List ℚ, b ∈ l →
      (l.countP fun w => decide (b < w)) < (l.countP fun w => decide (a < w)) := by
  intro l hb
  induction l with
  | nil => cases hb
  | cons c l ih =>
    rw [List.countP_cons, List.countP_cons]
    have hmono : (l.countP fun w => decide (b < w)) ≤
        (l.countP fun w => decide (a < w)) :=
      List.countP_mono_left (by
        intro x hx hbx
        simp only [decide_eq_true_eq] at hbx ⊢
        exact lt_trans hab hbx)
    rcases List.mem_cons.mp hb with rfl | hbl
    · simp [lt_irrefl, hab]
      omega
    · have hlt := ih hbl
      by_cases hc : b < c
      · have hac : a < c := lt_trans hab hc
        simp [hc, hac]
        omega
      · by_cases hac : a < c
        · simp [hc, hac]
          omega
        · simp [hc, hac]
          omega

/-- A list member has strictly fewer entries above it than the length. -/
theorem countLt_lt_length (l : List ℚ) (v : ℚ) (hv : v ∈ l) :
    (l.countP fun w => decide (v < w)) < l.length := by
  apply Nat.lt_of_le_of_ne (List.countP_le_length _)
  intro h
  have := List.countP_eq_length.mp h v hv
  simp at this

/-- Over a duplicate-free column the average descending rank collapses to
one plus the number of strictly larger entries. -/
theorem rank_desc_eq_natRank (l : List ℚ) (hn : l.Nodup) :
    rank_desc l = (l.map fun v => (l.countP fun w => decide (v < w)) + 1).map
      (Nat.cast : ℕ → ℚ) := by
  rw [List.map_map]
  unfold rank_desc
  apply List.map_congr_left
  intro v hv
  simp only [Function.comp_apply]
  rw [countP_eq_one_nodup l hn v hv]
  push_cast
  norm_num

/-- The integer descending ranks of a duplicate-free column are a
permutation of 1..N. -/
theorem natRank_perm (l : List ℚ) (hn : l.Nodup) :
    (l.map fun v => (l.countP fun w => decide (v < w)) + 1).Perm
      (List.range' 1 l.length) := by
  have hnd : (l.map fun v => (l.countP fun w => decide (v < w)) + 1).Nodup := by
    apply hn.map_on
    intro x hx y hy hxy
    by_contra hne
    rcases lt_trichotomy x y with hlt | heq | hgt
    · have := countLt_lt_countLt x y hlt l hy
      omega
    · exact hne heq
    · have := countLt_lt_countLt y x hgt l hx
      omega
  have hsub : (l.map fun v => (l.countP fun w => decide (v < w)) + 1) ⊆
      List.range' 1 l.length := by
    intro z hz
    rcases List.mem_map.mp hz with ⟨v, hv, rfl⟩
    rw [List.mem_range'_1]
    have := countLt_lt_length l v hv
    omega
  have hsp := List.subperm_of_subset hnd hsub
  exact hsp.perm_of_length_le (by simp)

/-- A duplicate-free column ranks to a permutation of 1..N. -/
theorem rank_desc_perm (l : List ℚ) (hn : l.Nodup) :
    (rank_desc l).Perm ((List.range' 1 l.length).map (Nat.cast : ℕ → ℚ)) := by
  rw [rank_desc_eq_natRank l hn]
  exact (natRank_perm l hn).map _

/-- C3 amended: when the values of a metric column are pairwise distinct,
the corresponding derived rank column is a permutation of 1..N; this holds
for each of the kappa, rho and variance-explained rank columns. (With ties,
pandas average ranking yields equal non-integer ranks instead; see the
counterexample.) -/
theorem spec_c3_amended (t : CompTable) (h1 : t.kappa.Nodup) (h2 : t.rho.Nodup)
    (h3 : t.var_exp.Nodup) :
    (kappa_rank t).Perm ((List.range' 1 t.kappa.length).map (Nat.cast : ℕ → ℚ)) ∧
    (rho_rank t).Perm ((List.range' 1 t.rho.length).map (Nat.cast : ℕ → ℚ)) ∧
    (var_exp_rank t).Perm ((List.range' 1 t.var_exp.length).map (Nat.cast : ℕ → ℚ)) :=
  ⟨rank_desc_perm _ h1, rank_desc_perm _ h2, rank_desc_perm _ h3⟩

/-- Closed instance of `spec_c3_amended` at a concrete distinct-valued table. -/
theorem spec_c3_witness :
    (tW.kappa.Nodup ∧ tW.rho.Nodup ∧ tW.var_exp.Nodup) ∧
    ((kappa_rank tW).Perm ((List.range' 1 tW.kappa.length).map (Nat.cast : ℕ → ℚ)) ∧
     (rho_rank tW).Perm ((List.range' 1 tW.rho.length).map (Nat.cast : ℕ → ℚ)) ∧
     (var_exp_rank tW).Perm ((List.range' 1 tW.var_exp.length).map (Nat.cast : ℕ → ℚ))) :=
  ⟨⟨by decide, by decide, by decide⟩,
    spec_c3_amended tW (by decide) (by decide) (by decide)⟩

/-- C3 fails on the code as stated: with the tied kappa column [5, 5] both
entries receive the pandas average rank 3/2, so the kappa rank column is not
a permutation of 1..2. -/
theorem spec_c3_cex :
    ¬ (kappa_rank tTie).Perm
        ((List.range' 1 tTie.kappa.length).map (Nat.cast : ℕ → ℚ)) := by
  intro h
  have h32 : (3 / 2 : ℚ) ∈ kappa_rank tTie := by
    have hev : kappa_rank tTie = [3 / 2, 3 / 2] := by
      norm_num [kappa_rank, rank_desc, tTie]
    rw [hev]
    exact List.mem_cons_self _ _
  have hmem := h.subset h32
  simp [tTie, List.range'] at hmem
  rcases hmem with h | h <;> norm_num at h

/-- Closed instance of `spec_c2_amended`: two different prior panel states
produce the same panel text after the same select tap. -/
theorem spec_c2_amended_witness :
    (tap_callback_js cfg9 st9 [3]).divText =
      (tap_callback_js cfg9 stPrior [3]).divText :=
  spec_c2_amended.1 cfg9 st9 stPrior [3]

/-- Closed instance of `spec_c10` at concrete arguments: two different
panels passed as `div` give identical callbacks bound to `div_content`. -/
theorem spec_c10_witness :
    tap_callback cfg1.data cfg1.meicaTS cfg1.meicaFFT
        { x := [0, 1], y := [0, 0] } { x := [0, 1], y := [0, 0] }
        { line_color := "#000000" } { line_color := "#000000" }
        { width := 1, height := 1, height_policy := "auto" } "." =
      tap_callback cfg1.data cfg1.meicaTS cfg1.meicaFFT
        { x := [0, 1], y := [0, 0] } { x := [0, 1], y := [0, 0] }
        { line_color := "#000000" } { line_color := "#000000" }
        div_content "." ∧
    (tap_callback cfg1.data cfg1.meicaTS cfg1.meicaFFT
        { x := [0, 1], y := [0, 0] } { x := [0, 1], y := [0, 0] }
        { line_color := "#000000" } { line_color := "#000000" }
        { width := 1, height := 1, height_policy := "auto" } ".").div = div_content :=
  spec_c10 cfg1.data cfg1.meicaTS cfg1.meicaFFT
    { x := [0, 1], y := [0, 0] } { x := [0, 1], y := [0, 0] }
    { line_color := "#000000" } { line_color := "#000000" }
    { width := 1, height := 1, height_policy := "auto" } div_content "."
